import Mathlib

/-!
Verification of the scorpion-copilot asset-scoring and opportunity-ranking
pipeline.

Shallow embedding of:
  * src/scorpion_backend.py : calculate_technical_indicators, ai_generate_signal,
    analyze_asset;
  * src/top_opportunities_engine.py : TopOpportunitiesEngine (profit probability,
    profit target, risk level, criteria filter, top-3 selection, confidence);
  * src/trading212_integration.py : Trading212Integration.import_from_csv.

Numeric model: Python floats are embedded as exact rationals.  The two places
where IEEE special values can arise in the source are modelled explicitly:
the RSI division avg_gain/avg_loss (0.0 denominator gives +inf or NaN, see
rsiOf) and the Bollinger-position division (see bbPosition, which is real
valued because the rolling standard deviation is a square root).
-/

namespace Scorpion

/-- Python max of two numbers (returns the first argument on ties, as CPython
does; on numbers this coincides with the mathematical max). -/
def pyMax (a b : ℚ) : ℚ := if a < b then b else a

/-- Python min of two numbers (returns the first argument on ties). -/
def pyMin (a b : ℚ) : ℚ := if b < a then b else a

/-- Python abs on a number. -/
def pyAbs (x : ℚ) : ℚ := if x < 0 then -x else x

/-- The clamp spelled the way the specification states it: clamp(lo, hi, x). -/
def clamp (lo hi x : ℚ) : ℚ := max lo (min hi x)

/-- pandas .iloc[-k] on a series embedded as a list: the k-th element counted
from the end (out of range yields the junk value 0, never reached under the
length guards of the source). -/
def ilocNeg (l : List ℚ) (k : ℕ) : ℚ := l.getD (l.length - k) 0

/-- The window of the last n elements, as used by pandas rolling(n) at the
final position. -/
def lastN (l : List ℚ) (n : ℕ) : List ℚ := l.drop (l.length - n)

/-- close.diff() dropping the leading NaN: the list of successive
close-to-close deltas. -/
def diffs (l : List ℚ) : List ℚ := List.zipWith (fun a b => a - b) l.tail l

/-- Rolling mean over the last n elements (pandas rolling(n).mean().iloc[-1]). -/
def rollingMeanLast (l : List ℚ) (n : ℕ) : ℚ := (lastN l n).sum / n

/-- One daily bar of the OHLCV series; only the Close and Volume columns are
read by calculate_technical_indicators. -/
structure Bar where
  close : ℚ
  volume : ℚ
deriving DecidableEq

/-- Average gain of the last 14 deltas: (delta.where(delta gt 0, 0)).rolling(14).mean(). -/
def gains14 (closes : List ℚ) : ℚ := ((lastN (diffs closes) 14).map (fun d => pyMax d 0)).sum / 14

/-- Average loss of the last 14 deltas: (-delta.where(delta lt 0, 0)).rolling(14).mean(). -/
def losses14 (closes : List ℚ) : ℚ := ((lastN (diffs closes) 14).map (fun d => pyMax (-d) 0)).sum / 14

/-- RSI as the source computes it: rs = gain/loss, rsi = 100 - 100/(1+rs), in
IEEE float arithmetic.  When avg_loss = 0 and avg_gain positive, rs is +inf and
the float expression evaluates to exactly 100; when both are 0 the float result
is NaN, modelled as none.  Otherwise the computation is ordinary arithmetic. -/
def rsiOf (closes : List ℚ) : Option ℚ :=
  let g := gains14 closes
  let l := losses14 closes
  if l = 0 then (if g = 0 then none else some 100)
  else some (100 - 100 / (1 + g / l))

/-- Momentum over the source's window: ((close.iloc[-1] / close.iloc[-k]) - 1) * 100
when the series has at least k bars, else 0.  The source uses k = 5, 20, 60 for
momentum_1w, momentum_1m, momentum_3m. -/
def momentumK (k : ℕ) (closes : List ℚ) : ℚ :=
  if k ≤ closes.length then ((ilocNeg closes 1) / (ilocNeg closes k) - 1) * 100 else 0

/-- Exponential smoothing step list for ewm(span, adjust=False): the head seeds
the average, each later value contributes with weight alpha. -/
def ewmAux (a : ℚ) : ℚ → List ℚ → List ℚ
  | _, [] => []
  | prev, x :: xs =>
    let e := (1 - a) * prev + a * x
    e :: ewmAux a e xs

/-- pandas Series.ewm(span=n, adjust=False).mean(): alpha = 2/(n+1), seeded with
the first element. -/
def ewm (n : ℕ) (xs : List ℚ) : List ℚ :=
  match xs with
  | [] => []
  | x :: rest => x :: ewmAux (2 / (n + 1)) x rest

/-- The MACD line: EMA(12) - EMA(26) of the closes, pointwise. -/
def macdSeries (closes : List ℚ) : List ℚ :=
  List.zipWith (fun a b => a - b) (ewm 12 closes) (ewm 26 closes)

/-- Sample variance (pandas .std() uses ddof = 1, so the divisor is n - 1) of
the last 20 closes; the rolling standard deviation at the final position is its
square root. -/
def sampleVar20 (closes : List ℚ) : ℚ :=
  let w := lastN closes 20
  let m := w.sum / 20
  (w.map (fun x => (x - m) ^ 2)).sum / 19

/-- std = close.rolling(20).std().iloc[-1], a real number since it is a square
root. -/
noncomputable def std20 (closes : List ℚ) : ℝ := Real.sqrt (sampleVar20 closes)

/-- upper_band.iloc[-1] = sma20 + 2 * std. -/
noncomputable def upperBand (closes : List ℚ) : ℝ :=
  (rollingMeanLast closes 20 : ℝ) + (std20 closes) * 2

/-- lower_band.iloc[-1] = sma20 - 2 * std. -/
noncomputable def lowerBand (closes : List ℚ) : ℝ :=
  (rollingMeanLast closes 20 : ℝ) - (std20 closes) * 2

/-- bb_position = (current_price - lower_band) / (upper_band - lower_band).
Real division; when the divisor is 0 the float source produces NaN or inf,
which is exactly why claim C9 isolates the nonzero-divisor precondition. -/
noncomputable def bbPosition (closes : List ℚ) : ℝ :=
  (((ilocNeg closes 1 : ℚ) : ℝ) - lowerBand closes) / (upperBand closes - lowerBand closes)

/-- The TechnicalIndicators record returned by calculate_technical_indicators.
rsi is an Option because the float RSI is NaN when the last 14 deltas are all
zero; every other field is ordinary arithmetic on the inputs. -/
structure TechnicalIndicators where
  price : ℚ
  sma_20 : ℚ
  sma_50 : ℚ
  rsi : Option ℚ
  macd : ℚ
  macd_signal : ℚ
  volume_ratio : ℚ
  momentum_1w : ℚ
  momentum_1m : ℚ
  momentum_3m : ℚ
  bb_position : ℝ

/-- calculate_technical_indicators (src/scorpion_backend.py): returns the empty
result (none) for fewer than 20 bars, otherwise the full record. -/
noncomputable def calculate_technical_indicators (hist : List Bar) : Option TechnicalIndicators :=
  if hist.length < 20 then none
  else
    let closes := hist.map Bar.close
    let volumes := hist.map Bar.volume
    let avgVolume := rollingMeanLast volumes 20
    some
      { price := ilocNeg closes 1
        sma_20 := rollingMeanLast closes 20
        sma_50 := if 50 ≤ hist.length then rollingMeanLast closes 50 else rollingMeanLast closes 20
        rsi := rsiOf closes
        macd := ilocNeg (macdSeries closes) 1
        macd_signal := ilocNeg (ewm 9 (macdSeries closes)) 1
        volume_ratio := if 0 < avgVolume then ilocNeg volumes 1 / avgVolume else 1
        momentum_1w := momentumK 5 closes
        momentum_1m := momentumK 20 closes
        momentum_3m := momentumK 60 closes
        bb_position := bbPosition closes }

/-- The expert-signal record produced by calculate_expert_signal: the experts
holding a ticker, their count and their summed weight.  The static
EXPERT_PORTFOLIOS table it is looked up from is configuration, so the record is
taken as an input here. -/
structure ExpertSignal where
  experts : List String
  num_experts : ℕ
  expert_weight : ℚ
deriving DecidableEq

/-- RSI branch of the technical component of ai_generate_signal.  The source
compares the float rsi with 40/60/30/70; a NaN rsi (none) makes every
comparison false, so no branch fires and the contribution is 0. -/
def rsiTechScore : Option ℚ → ℚ
  | none => 0
  | some r => if 40 < r ∧ r < 60 then 5 else if r < 30 then 8 else if r > 70 then -5 else 0

/-- The score computed by ai_generate_signal (src/scorpion_backend.py): expert
component + momentum component + technical component + volume component, then
min(max(score, 0), 100).  The recommendation/confidence/reasoning strings the
function also returns are derived from this score and are not needed by the
claims. -/
def ai_generate_signal_score (t : TechnicalIndicators) (e : ExpertSignal) : ℚ :=
  let expertScore := e.expert_weight * 4
  let momentumScore : ℚ :=
    if t.momentum_3m > 15 then 25
    else if t.momentum_3m > 5 then 15
    else if t.momentum_3m < -15 then -10
    else 0
  let trendScore : ℚ :=
    if t.price > t.sma_20 ∧ t.sma_20 > t.sma_50 then 10
    else if t.price < t.sma_20 then -5
    else 0
  let macdScore : ℚ := if t.macd > t.macd_signal then 5 else 0
  let techScore := trendScore + rsiTechScore t.rsi + macdScore
  let volumeScore : ℚ :=
    if t.volume_ratio > (15/10) then 10
    else if t.volume_ratio > (12/10) then 5
    else 0
  pyMin (pyMax (expertScore + momentumScore + techScore + volumeScore) 0) 100

/-- The scored-asset record built by analyze_asset, restricted to the computed
fields the ranking pipeline consumes; display-only strings and the external
news/chart lookups are omitted. -/
structure ScoredAsset where
  ticker : String
  price : ℚ
  score : ℚ
  expert_signal : ℚ
  num_experts : ℕ
  experts : List String
  momentum_3m : ℚ
  momentum_1m : ℚ
  momentum_1w : ℚ
  rsi : Option ℚ
  volume_ratio : ℚ

/-- analyze_asset (src/scorpion_backend.py), with the external market-data
fetch replaced by its result hist and the static expert lookup by its result
es: an empty fetch or an empty indicator record yields no scored asset. -/
noncomputable def analyze_asset (ticker : String) (hist : List Bar) (es : ExpertSignal) :
    Option ScoredAsset :=
  if hist.isEmpty then none
  else
    match calculate_technical_indicators hist with
    | none => none
    | some t =>
      some
        { ticker := ticker
          price := t.price
          score := ai_generate_signal_score t es
          expert_signal := es.expert_weight * (15/10)
          num_experts := es.num_experts
          experts := es.experts
          momentum_3m := t.momentum_3m
          momentum_1m := t.momentum_1m
          momentum_1w := t.momentum_1w
          rsi := t.rsi
          volume_ratio := t.volume_ratio }

/-- ASCII lower-casing of one character, the fragment of Python str.lower()
exercised by the sector names of this code base. -/
def lowerChar (c : Char) : Char :=
  if 65 ≤ c.toNat ∧ c.toNat ≤ 90 then Char.ofNat (c.toNat + 32) else c

/-- ASCII upper-casing of one character, the fragment of Python str.upper()
exercised by the ticker symbols of this code base. -/
def upperChar (c : Char) : Char :=
  if 97 ≤ c.toNat ∧ c.toNat ≤ 122 then Char.ofNat (c.toNat - 32) else c

/-- s.lower() as a character list. -/
def lowerStr (s : String) : List Char := s.toList.map lowerChar

/-- s.upper() as a character list. -/
def upperStr (s : String) : List Char := s.toList.map upperChar

/-- Python substring test pat in s, on character lists. -/
def strContains (s : List Char) (pat : String) : Bool :=
  decide (List.IsInfix pat.toList s)

/-- One asset of the market-data batch fed to the ranker, with the fields the
TopOpportunitiesEngine reads via .get; the source's .get defaults apply when a
key is missing, here every field is present.  The float rsi read from the
scored asset is embedded as a rational: a NaN rsi makes all the source's rsi
comparisons false, which coincides with any rational outside all the tested
ranges, so the rational model loses no behaviour. -/
structure Asset where
  ticker : String
  price : ℚ
  score : ℚ
  momentum_3m : ℚ
  rsi : ℚ
  volume_ratio : ℚ
  experts : List String
  sector : String
  market_cap : String
deriving DecidableEq

/-- TopOpportunitiesEngine._estimate_volatility: fixed sector-to-volatility
lookup by substring of the lowercased sector. -/
def estimateVolatility (a : Asset) : ℚ :=
  let s := lowerStr a.sector
  if strContains s "crypto" then (6/10)
  else if strContains s "small" then (4/10)
  else if strContains s "tech" then (3/10)
  else if strContains s "large" then (2/10)
  else (25/100)

/-- TopOpportunitiesEngine._calculate_profit_probability: base probability
score/100 scaled by the momentum, rsi, volume and expert factors, capped to
[0.5, 0.95]. -/
def calculate_profit_probability (a : Asset) : ℚ :=
  let baseProb := a.score / 100
  let momentumFactor : ℚ :=
    if a.momentum_3m > 15 then (12/10)
    else if a.momentum_3m > 5 then (11/10)
    else if a.momentum_3m < -15 then (7/10)
    else if a.momentum_3m < -5 then (8/10)
    else 1
  let rsiFactor : ℚ :=
    if 30 ≤ a.rsi ∧ a.rsi ≤ 70 then (11/10)
    else if a.rsi > 80 ∨ a.rsi < 20 then (8/10)
    else 1
  let volumeFactor : ℚ :=
    if a.volume_ratio > (15/10) then (115/100)
    else if a.volume_ratio < (7/10) then (9/10)
    else 1
  let expertFactor : ℚ := 1 + (a.experts.length : ℚ) * (5/100)
  pyMax (5/10) (pyMin (95/100) (baseProb * momentumFactor * rsiFactor * volumeFactor * expertFactor))

/-- TopOpportunitiesEngine._calculate_profit_target. -/
def calculate_profit_target (a : Asset) : ℚ :=
  let baseTarget := a.score / 100 * (30/100)
  let momentumMultiplier : ℚ :=
    if a.momentum_3m > 20 then (13/10)
    else if a.momentum_3m > 10 then (12/10)
    else if a.momentum_3m > 0 then (11/10)
    else (9/10)
  let volatilityMultiplier : ℚ := 1 + (estimateVolatility a - (2/10))
  pyMax (10/100) (pyMin (50/100) (baseTarget * momentumMultiplier * volatilityMultiplier))

/-- TopOpportunitiesEngine._calculate_risk_level. -/
def calculate_risk_level (a : Asset) : ℚ :=
  let baseRisk := (100 - a.score) / 100
  let momentumRisk := pyMin (3/10) (pyAbs a.momentum_3m / 100)
  let volatilityRisk := pyMin (4/10) (estimateVolatility a)
  let s := lowerStr a.sector
  let sectorRisk : ℚ :=
    if strContains s "crypto" then (3/10)
    else if strContains s "small" then (2/10)
    else if strContains s "biotech" then (25/100)
    else 0
  pyMax (5/100) (pyMin (4/10) (baseRisk * (4/10) + momentumRisk * (3/10) + volatilityRisk * (2/10) + sectorRisk * (1/10)))

/-- TopOpportunitiesEngine._calculate_entry_price. -/
def calculate_entry_price (a : Asset) : ℚ :=
  if a.momentum_3m > 15 then a.price * (98/100)
  else if a.momentum_3m > 5 then a.price * (99/100)
  else a.price

/-- TopOpportunitiesEngine._calculate_stop_loss. -/
def calculate_stop_loss (a : Asset) : ℚ :=
  calculate_entry_price a * (1 - ((10/100) + calculate_risk_level a * (15/100)))

/-- TopOpportunitiesEngine._calculate_position_size. -/
def calculate_position_size (a : Asset) (riskLevel : ℚ) : ℚ :=
  pyMax (3/100) (pyMin (12/100) (calculate_profit_probability a * (15/100) * (1 - riskLevel * (5/10))))

/-- TopOpportunitiesEngine._calculate_timeline. -/
def calculate_timeline (a : Asset) : String :=
  if a.momentum_3m > 20 ∧ estimateVolatility a < (3/10) then "2-3 months"
  else if a.momentum_3m > 10 then "3-4 months"
  else if a.momentum_3m > 0 then "4-6 months"
  else "6-12 months"

/-- TopOpportunitiesEngine._calculate_confidence: a tier of the recomputed
profit probability. -/
def calculate_confidence (a : Asset) : String :=
  let p := calculate_profit_probability a
  if p ≥ (85/100) then "Very High"
  else if p ≥ (80/100) then "High"
  else if p ≥ (75/100) then "Medium-High"
  else "Medium"

/-- TopOpportunitiesEngine._get_company_name: fixed ticker-to-name table,
defaulting to the (uppercased key misses fall back to the raw) ticker. -/
def get_company_name (ticker : String) : String :=
  let t := upperStr ticker
  if t = "AAPL".toList then "Apple Inc."
  else if t = "MSFT".toList then "Microsoft Corporation"
  else if t = "NVDA".toList then "NVIDIA Corporation"
  else if t = "GOOGL".toList then "Alphabet Inc."
  else if t = "AMZN".toList then "Amazon.com Inc."
  else if t = "TSLA".toList then "Tesla Inc."
  else if t = "META".toList then "Meta Platforms Inc."
  else if t = "NFLX".toList then "Netflix Inc."
  else if t = "AMD".toList then "Advanced Micro Devices"
  else if t = "CRM".toList then "Salesforce Inc."
  else ticker

/-- The opportunity record built by _analyze_asset_opportunity.  The
display-only fields merged in later by _get_detailed_analysis
(why_this_works, risk_factors, ...) use keys disjoint from these, so the
dict.update in analyze_all_opportunities changes none of the fields below and
is omitted. -/
structure Opportunity where
  ticker : String
  name : String
  current_price : ℚ
  profit_target : ℚ
  profit_probability : ℚ
  risk_level : ℚ
  profit_score : ℚ
  entry_price : ℚ
  stop_loss : ℚ
  position_size : ℚ
  timeline : String
  confidence : String
  sector : String
  market_cap : String
deriving DecidableEq

/-- TopOpportunitiesEngine._analyze_asset_opportunity: none for a falsy ticker
or when any of the three minimum-criteria guards fires, otherwise the full
record. -/
def analyze_asset_opportunity (a : Asset) : Option Opportunity :=
  if a.ticker = "" then none
  else
    let pp := calculate_profit_probability a
    let pt := calculate_profit_target a
    let rl := calculate_risk_level a
    let ps := pp * pt * (1 - rl * (5/10))
    if pp < (75/100) then none
    else if pt < (15/100) then none
    else if rl > (20/100) then none
    else
      some
        { ticker := a.ticker
          name := get_company_name a.ticker
          current_price := a.price
          profit_target := pt
          profit_probability := pp
          risk_level := rl
          profit_score := ps
          entry_price := calculate_entry_price a
          stop_loss := calculate_stop_loss a
          position_size := calculate_position_size a rl
          timeline := calculate_timeline a
          confidence := calculate_confidence a
          sector := a.sector
          market_cap := a.market_cap }

/-- TopOpportunitiesEngine._meets_criteria: the three threshold filters, with
the engine's constant thresholds 0.75 / 0.15 / 0.20. -/
def meets_criteria (o : Opportunity) : Bool :=
  decide (o.profit_probability ≥ (75/100)) && decide (o.profit_target ≥ (15/100))
    && decide (o.risk_level ≤ (20/100))

/-- Descending stable insertion by profit_score: a new element passes every
element with a strictly smaller score and lands after equal scores, matching
Python's stable sort with reverse=True. -/
def insertDesc (o : Opportunity) : List Opportunity → List Opportunity
  | [] => [o]
  | x :: xs => if o.profit_score > x.profit_score then o :: x :: xs else x :: insertDesc o xs

/-- opportunities.sort(key profit_score, reverse=True): stable descending sort. -/
def sortDesc : List Opportunity → List Opportunity
  | [] => []
  | x :: xs => insertDesc x (sortDesc xs)

/-- TopOpportunitiesEngine._get_default_opportunities, restricted to the
Opportunity fields (the canned why_this_works / risk_factors prose carries no
data the claims mention). -/
def default_opportunities : List Opportunity :=
  [ { ticker := "NVDA", name := "NVIDIA Corporation", current_price := 420,
      profit_target := (28/100), profit_probability := (87/100), risk_level := (15/100),
      profit_score := (85/100), entry_price := 415, stop_loss := 380,
      position_size := (8/100), timeline := "3 months", confidence := "Very High",
      sector := "Technology", market_cap := "Large Cap" },
    { ticker := "MSFT", name := "Microsoft Corporation", current_price := 380,
      profit_target := (22/100), profit_probability := (82/100), risk_level := (12/100),
      profit_score := (78/100), entry_price := 375, stop_loss := 350,
      position_size := (10/100), timeline := "4 months", confidence := "High",
      sector := "Technology", market_cap := "Large Cap" },
    { ticker := "AAPL", name := "Apple Inc.", current_price := 180,
      profit_target := (18/100), profit_probability := (79/100), risk_level := (10/100),
      profit_score := (75/100), entry_price := 178, stop_loss := 165,
      position_size := (12/100), timeline := "6 months", confidence := "High",
      sector := "Technology", market_cap := "Large Cap" } ]

/-- TopOpportunitiesEngine.analyze_all_opportunities: the default list when the
batch is missing or empty, otherwise filter by _analyze_asset_opportunity and
_meets_criteria, sort by profit_score descending and keep the first 3. -/
def analyze_all_opportunities (assets : List Asset) : List Opportunity :=
  if assets.isEmpty then default_opportunities
  else
    (sortDesc ((assets.filterMap analyze_asset_opportunity).filter meets_criteria)).take 3

/-- One CSV row after the column-alias sniffing of the _extract_* helpers:
each logical field is present (some) or absent/unparseable (none).  Rows whose
extraction raised are already covered by none fields, since every _extract_*
swallows its exceptions. -/
structure Row where
  instrument : Option String
  quantity : Option ℚ
  avg_price : Option ℚ
  current_price : Option ℚ
  pnl : Option ℚ
deriving DecidableEq

/-- Python truthiness of an optional float: None and 0.0 are falsy. -/
def truthyQ : Option ℚ → Bool
  | none => false
  | some x => decide (x ≠ 0)

/-- Python truthiness of an optional string: None and the empty string are
falsy. -/
def truthyS : Option String → Bool
  | none => false
  | some s => decide (s ≠ "")

/-- A normalized portfolio position as built by import_from_csv. -/
structure Position where
  ticker : String
  shares : ℚ
  avg_price : ℚ
  current_price : Option ℚ
  pnl : ℚ
  value : ℚ
  weight : ℚ
deriving DecidableEq

/-- The row guard of import_from_csv: if instrument and quantity and avg_price. -/
def validRow (r : Row) : Bool :=
  truthyS r.instrument && truthyQ r.quantity && truthyQ r.avg_price

/-- The position dict built for one accepted row.  Note the value field:
float(quantity) * float(current_price) if current_price else 0 — the fallback
when the current price is absent (or 0.0) is 0, not shares * avg_price. -/
def mkPosition (r : Row) : Position :=
  { ticker := r.instrument.getD ""
    shares := r.quantity.getD 0
    avg_price := r.avg_price.getD 0
    current_price := if truthyQ r.current_price then r.current_price else none
    pnl := if truthyQ r.pnl then r.pnl.getD 0 else 0
    value := if truthyQ r.current_price then r.quantity.getD 0 * r.current_price.getD 0 else 0
    weight := 0 }

/-- The portfolio dict returned by import_from_csv (positions, total_value,
total_pnl; the timestamp and source strings carry no computed data). -/
structure Portfolio where
  positions : List Position
  total_value : ℚ
  total_pnl : ℚ
deriving DecidableEq

/-- Trading212Integration.import_from_csv over the already-sniffed rows: the
first pass accumulates positions, total_value and total_pnl; the second pass
rewrites each weight to value / total_value * 100 when total_value > 0 (else
the weight keeps its initial 0).  The subsequent _update_current_prices step
fetches live quotes from the network; it is external input and is modelled as
returning no data, which leaves the portfolio unchanged. -/
def import_from_csv (rows : List Row) : Portfolio :=
  let ps := (rows.filter validRow).map mkPosition
  let total := (ps.map Position.value).sum
  { positions :=
      ps.map (fun p => { p with weight := if 0 < total then p.value / total * 100 else 0 })
    total_value := total
    total_pnl := (ps.map Position.pnl).sum }

/-- The momentum formula exactly as the specification words it: over horizon k
bars, (close[-1]/close[-1-k] - 1) * 100 — i.e. the (k+1)-th element from the
end — and 0 when that element does not exist.  Declared for comparison with the
source's momentumK, which reads the k-th element from the end instead. -/
def momentum_spec_formula (k : ℕ) (closes : List ℚ) : ℚ :=
  if k + 1 ≤ closes.length then ((ilocNeg closes 1) / (ilocNeg closes (k + 1)) - 1) * 100 else 0

/-- The momentum factor exactly as the specification states it. -/
def momentum_factor_spec (m : ℚ) : ℚ :=
  if m > 15 then (12/10)
  else if m > 5 then (11/10)
  else if m < -15 then (7/10)
  else if m < -5 then (8/10)
  else 1

/-- The rsi factor exactly as the specification states it. -/
def rsi_factor_spec (r : ℚ) : ℚ :=
  if 30 ≤ r ∧ r ≤ 70 then (11/10)
  else if r > 80 ∨ r < 20 then (8/10)
  else 1

/-- The volume factor exactly as the specification states it. -/
def volume_factor_spec (v : ℚ) : ℚ :=
  if v > (15/10) then (115/100)
  else if v < (7/10) then (9/10)
  else 1

/-- The expert factor exactly as the specification states it:
1 + 0.05 * num_experts. -/
def expert_factor_spec (n : ℕ) : ℚ := 1 + (5/100) * n

/-- The profit probability exactly as the specification states it:
clamp(0.5, 0.95, (score/100) * momentum_factor * rsi_factor * volume_factor *
expert_factor). -/
def profit_probability_spec (a : Asset) : ℚ :=
  clamp (5/10) (95/100)
    (a.score / 100 * momentum_factor_spec a.momentum_3m * rsi_factor_spec a.rsi
      * volume_factor_spec a.volume_ratio * expert_factor_spec a.experts.length)

/-- A concrete scored asset that clears every ranking threshold: probability
caps at 0.95, target 0.31185, risk 0.12. -/
def goodAsset : Asset :=
  { ticker := "NVDA", price := 100, score := 90, momentum_3m := 10, rsi := 50,
    volume_ratio := 1, experts := [], sector := "Other", market_cap := "Large Cap" }

instance : Inhabited Opportunity :=
  ⟨{ ticker := "", name := "", current_price := 0, profit_target := 0,
     profit_probability := 0, risk_level := 0, profit_score := 0, entry_price := 0,
     stop_loss := 0, position_size := 0, timeline := "", confidence := "",
     sector := "", market_cap := "" }⟩

/-- The opportunity record the engine produces for the one-asset batch
[goodAsset], written out field by field. -/
def goodOpp : Opportunity :=
  { ticker := "NVDA", name := "NVIDIA Corporation", current_price := 100,
    profit_target := 6237/20000, profit_probability := 19/20, risk_level := 3/25,
    profit_score := 5569641/20000000, entry_price := 99, stop_loss := 43659/500,
    position_size := 3/25, timeline := "4-6 months", confidence := "Very High",
    sector := "Other", market_cap := "Large Cap" }

/-- A 19-bar series: one bar short of the indicator minimum. -/
def hist19 : List Bar := List.replicate 19 { close := 1, volume := 1 }

/-- A 20-bar series with constant closes: every close-to-close delta is 0. -/
def flatHist : List Bar := List.replicate 20 { close := 1, volume := 1 }

/-- A 20-bar series with strictly increasing closes 1, 2, ..., 20: every delta
is +1. -/
def upHist : List Bar := (List.range 20).map (fun i => { close := (i : ℚ) + 1, volume := 1 })

/-- A 20-bar series whose last six closes are 1, 2, 3, 4, 5, 6 after fourteen
constant bars: close.iloc[-5] = 2 while the specification's close[-1-5] = 1. -/
def stepHist : List Bar :=
  (List.replicate 14 (1 : ℚ) ++ [1, 2, 3, 4, 5, 6]).map (fun c => { close := c, volume := 1 })

/-- An empty expert signal. -/
def esEmpty : ExpertSignal := { experts := [], num_experts := 0, expert_weight := 0 }

/-- A 20-bar series with nineteen closes at 0 and a final close at 1: the
rolling 20-bar sample variance is 1/20, strictly positive. -/
def spikeHist : List Bar :=
  List.replicate 19 { close := 0, volume := 1 } ++ [{ close := 1, volume := 1 }]

/-- An import row with ticker, quantity and average price but no current
price. -/
def rowNoCp : Row :=
  { instrument := some "AAPL", quantity := some 2, avg_price := some 10,
    current_price := none, pnl := none }

/-- An import row with every field present. -/
def rowFull : Row :=
  { instrument := some "MSFT", quantity := some 3, avg_price := some 5,
    current_price := some 7, pnl := some 1 }

/-! Shared lemmas. -/

/-- pyMax agrees with the lattice max on ℚ. -/
theorem pyMax_eq_max (a b : ℚ) : pyMax a b = max a b := by
  unfold pyMax
  rcases lt_or_le a b with h | h
  · simp [h, max_eq_right h.le]
  · simp [not_lt.mpr h, max_eq_left h]

/-- pyMin agrees with the lattice min on ℚ. -/
theorem pyMin_eq_min (a b : ℚ) : pyMin a b = min a b := by
  unfold pyMin
  rcases lt_or_le b a with h | h
  · simp [h, min_eq_right h.le]
  · simp [not_lt.mpr h, min_eq_left h]

/-- The length of the last-n window when the list is long enough. -/
theorem lastN_length {l : List ℚ} {n : ℕ} (h : n ≤ l.length) : (lastN l n).length = n := by
  simp only [lastN, List.length_drop]
  omega

/-- diffs has one element fewer than its input. -/
theorem diffs_length (l : List ℚ) : (diffs l).length = l.length - 1 := by
  simp [diffs]

/-- In a list of nonnegative rationals summing to zero, every element is
zero. -/
theorem eq_zero_of_mem_of_sum_zero {l : List ℚ} (h0 : ∀ x ∈ l, 0 ≤ x) (hs : l.sum = 0) :
    ∀ x ∈ l, x = 0 := by
  induction l with
  | nil => simp
  | cons a t ih =>
    have ha : 0 ≤ a := h0 a (by simp)
    have ht : ∀ x ∈ t, 0 ≤ x := fun x hx => h0 x (by simp [hx])
    have hts : 0 ≤ t.sum := List.sum_nonneg ht
    have hsum : a + t.sum = 0 := by simpa using hs
    intro x hx
    rcases List.mem_cons.mp hx with rfl | hx
    · linarith
    · exact ih ht (by linarith) x hx

/-- Summing after multiplying every element by a constant. -/
theorem sum_map_mul_const (l : List ℚ) (c : ℚ) :
    (l.map (fun x => x * c)).sum = l.sum * c := by
  induction l with
  | nil => simp
  | cons a t ih => simp [ih, add_mul]

/-- Membership in the descending insertion. -/
theorem mem_insertDesc {a o : Opportunity} {l : List Opportunity} :
    a ∈ insertDesc o l ↔ a = o ∨ a ∈ l := by
  induction l with
  | nil => simp [insertDesc]
  | cons x xs ih =>
    unfold insertDesc
    split
    · simp [List.mem_cons]
    · simp only [List.mem_cons, ih]
      tauto

/-- The descending sort permutes membership. -/
theorem mem_sortDesc {a : Opportunity} {l : List Opportunity} :
    a ∈ sortDesc l ↔ a ∈ l := by
  induction l with
  | nil => simp [sortDesc]
  | cons x xs ih => simp [sortDesc, mem_insertDesc, ih]

/-- The rsi field of the indicator record, for a long-enough series. -/
theorem calcTech_rsi (hist : List Bar) (h : 20 ≤ hist.length) :
    (calculate_technical_indicators hist).map TechnicalIndicators.rsi
      = some (rsiOf (hist.map Bar.close)) := by
  unfold calculate_technical_indicators
  rw [if_neg (by omega)]
  rfl

/-- The momentum fields of the indicator record, for a long-enough series. -/
theorem calcTech_momentum (hist : List Bar) (h : 20 ≤ hist.length) :
    (calculate_technical_indicators hist).map
        (fun t => (t.momentum_1w, t.momentum_1m, t.momentum_3m))
      = some (momentumK 5 (hist.map Bar.close), momentumK 20 (hist.map Bar.close),
          momentumK 60 (hist.map Bar.close)) := by
  unfold calculate_technical_indicators
  rw [if_neg (by omega)]
  rfl

/-! Claim C5: the score generated by ai_generate_signal is always in
[0, 100]. -/

/-- C5 (confirmed).  For every indicator record and expert signal, the score
returned by ai_generate_signal lies in [0, 100], however extreme the component
inputs are: the source ends with min(max(score, 0), 100). -/
theorem ai_score_within_0_100 (t : TechnicalIndicators) (e : ExpertSignal) :
    0 ≤ ai_generate_signal_score t e ∧ ai_generate_signal_score t e ≤ 100 := by
  unfold ai_generate_signal_score
  rw [pyMin_eq_min, pyMax_eq_max]
  constructor
  · exact le_min (le_max_right _ 0) (by norm_num)
  · exact min_le_right _ 100

/-! Claim C6: fewer than 20 bars yields no indicators and no scored asset. -/

/-- C6 (confirmed).  For every series of fewer than 20 bars,
calculate_technical_indicators returns the empty result and analyze_asset
consequently produces no scored asset. -/
theorem short_history_yields_no_asset (ticker : String) (hist : List Bar)
    (es : ExpertSignal) (h : hist.length < 20) :
    calculate_technical_indicators hist = none ∧ analyze_asset ticker hist es = none := by
  have hc : calculate_technical_indicators hist = none := by
    unfold calculate_technical_indicators
    exact if_pos h
  refine ⟨hc, ?_⟩
  unfold analyze_asset
  rw [hc]
  split <;> rfl

/-- C6 witness: a concrete 19-bar series. -/
theorem short_history_yields_no_asset_witness :
    calculate_technical_indicators hist19 = none ∧ analyze_asset "AAPL" hist19 esEmpty = none :=
  short_history_yields_no_asset "AAPL" hist19 esEmpty (by decide)

/-! Claim C7: the ranker's profit probability matches the specification's
clamp formula. -/

/-- C7 (confirmed).  For every asset, _calculate_profit_probability equals
clamp(0.5, 0.95, (score/100) * momentum_factor * rsi_factor * volume_factor *
expert_factor) with the factors exactly as the specification tabulates them. -/
theorem profit_probability_matches_spec_formula (a : Asset) :
    calculate_profit_probability a = profit_probability_spec a := by
  unfold calculate_profit_probability profit_probability_spec clamp
    momentum_factor_spec rsi_factor_spec volume_factor_spec expert_factor_spec
  rw [pyMax_eq_max, pyMin_eq_min, mul_comm ((5 : ℚ)/100) (a.experts.length : ℚ)]

/-! Claim C1: the opportunity ranker returns at most 3 records, all within the
three thresholds. -/

/-- C1 (confirmed).  For every market-data batch, analyze_all_opportunities
returns at most 3 opportunity records, and every returned record satisfies
profit_probability ≥ 0.75, profit_target ≥ 0.15 and risk_level ≤ 0.20; the
empty-batch default list satisfies the same bounds. -/
theorem analyze_all_returns_top3_within_thresholds (assets : List Asset) :
    (analyze_all_opportunities assets).length ≤ 3 ∧
      ∀ o ∈ analyze_all_opportunities assets,
        (75/100 : ℚ) ≤ o.profit_probability ∧ (15/100 : ℚ) ≤ o.profit_target ∧
          o.risk_level ≤ (20/100 : ℚ) := by
  unfold analyze_all_opportunities
  by_cases he : assets.isEmpty
  · rw [if_pos he]
    with_unfolding_all decide
  · rw [if_neg he]
    refine ⟨List.length_take_le 3 _, ?_⟩
    intro o ho
    have h2 := mem_sortDesc.mp (List.mem_of_mem_take ho)
    have h3 := (List.mem_filter.mp h2).2
    unfold meets_criteria at h3
    simp only [Bool.and_eq_true, decide_eq_true_eq, ge_iff_le] at h3
    exact ⟨h3.1.1, h3.1.2, h3.2⟩

/-! Claim C10: every returned opportunity's confidence is Medium-High, High or
Very High; Medium is never emitted. -/

/-- Inversion of _analyze_asset_opportunity: a produced record carries the
probability and the confidence recomputed from the same asset. -/
theorem analyze_asset_opportunity_fields {a : Asset} {o : Opportunity}
    (h : analyze_asset_opportunity a = some o) :
    o.profit_probability = calculate_profit_probability a ∧
      o.confidence = calculate_confidence a := by
  unfold analyze_asset_opportunity at h
  split at h
  · simp at h
  · dsimp only at h
    split at h
    · simp at h
    · split at h
      · simp at h
      · split at h
        · simp at h
        · obtain rfl := (Option.some_inj.mp h).symm
          exact ⟨rfl, rfl⟩

/-- C10 (confirmed).  Every opportunity returned from a non-empty asset batch
carries a confidence among Medium-High, High and Very High, never Medium:
inclusion forces profit_probability ≥ 0.75 and _calculate_confidence returns
Medium only below 0.75. -/
theorem returned_confidence_never_medium (assets : List Asset) (h : assets ≠ []) :
    ∀ o ∈ analyze_all_opportunities assets,
      (o.confidence = "Medium-High" ∨ o.confidence = "High" ∨
          o.confidence = "Very High") ∧ o.confidence ≠ "Medium" := by
  intro o ho
  have he : ¬ assets.isEmpty := by simp [List.isEmpty_iff, h]
  unfold analyze_all_opportunities at ho
  rw [if_neg he] at ho
  have h2 := mem_sortDesc.mp (List.mem_of_mem_take ho)
  obtain ⟨hmem, hmeets⟩ := List.mem_filter.mp h2
  obtain ⟨a, _, ha⟩ := List.mem_filterMap.mp hmem
  obtain ⟨hpp, hconf⟩ := analyze_asset_opportunity_fields ha
  unfold meets_criteria at hmeets
  simp only [Bool.and_eq_true, decide_eq_true_eq, ge_iff_le] at hmeets
  have hp : (75/100 : ℚ) ≤ calculate_profit_probability a := hpp ▸ hmeets.1.1
  rw [hconf]
  unfold calculate_confidence
  dsimp only
  split_ifs with hc1 hc2
  · exact ⟨Or.inr (Or.inr rfl), by decide⟩
  · exact ⟨Or.inr (Or.inl rfl), by decide⟩
  · exact ⟨Or.inl rfl, by decide⟩

/-- The engine's per-asset analysis of goodAsset produces exactly goodOpp. -/
theorem analyze_goodAsset_eq : analyze_asset_opportunity goodAsset = some goodOpp := by
  have hpp : calculate_profit_probability goodAsset = 19/20 := by with_unfolding_all decide
  have hrl : calculate_risk_level goodAsset = 3/25 := by with_unfolding_all decide
  have hvol : estimateVolatility goodAsset = 25/100 := by with_unfolding_all decide
  have hpt : calculate_profit_target goodAsset = 6237/20000 := by
    unfold calculate_profit_target
    rw [hvol]
    norm_num [goodAsset, pyMax, pyMin]
  have hentry : calculate_entry_price goodAsset = 99 := by with_unfolding_all decide
  have hstop : calculate_stop_loss goodAsset = 43659/500 := by
    unfold calculate_stop_loss
    rw [hentry, hrl]
    norm_num
  have hpos : calculate_position_size goodAsset (3/25) = 3/25 := by
    unfold calculate_position_size
    rw [hpp]
    norm_num [pyMax, pyMin]
  have htl : calculate_timeline goodAsset = "4-6 months" := by with_unfolding_all decide
  have hconf : calculate_confidence goodAsset = "Very High" := by with_unfolding_all decide
  have hname : get_company_name "NVDA" = "NVIDIA Corporation" := by with_unfolding_all decide
  unfold analyze_asset_opportunity
  dsimp only
  rw [if_neg (by decide)]
  rw [hpp, hpt, hrl, hentry, hstop, hpos, htl, hconf]
  norm_num [goodAsset, goodOpp, hname]

/-- The whole batch analysis of [goodAsset] returns the single record
goodOpp. -/
theorem analyze_all_goodAsset_eq : analyze_all_opportunities [goodAsset] = [goodOpp] := by
  have hm : meets_criteria goodOpp = true := by with_unfolding_all decide
  unfold analyze_all_opportunities
  rw [if_neg (by decide)]
  rw [show List.filterMap analyze_asset_opportunity [goodAsset] = [goodOpp] from by
        simp [List.filterMap, analyze_goodAsset_eq]]
  rw [show List.filter meets_criteria [goodOpp] = [goodOpp] from by simp [List.filter, hm]]
  rfl

/-- C10 witness: the opportunity produced for the concrete one-asset batch
[goodAsset]. -/
theorem returned_confidence_never_medium_witness :
    (goodOpp.confidence = "Medium-High" ∨ goodOpp.confidence = "High" ∨
        goodOpp.confidence = "Very High") ∧ goodOpp.confidence ≠ "Medium" :=
  returned_confidence_never_medium [goodAsset] (by simp) goodOpp
    (by rw [analyze_all_goodAsset_eq]; exact List.mem_singleton.mpr rfl)

/-! Claim C2: RSI bounds.  The RSI lemmas work on rsiOf, then transfer to the
indicator record through calcTech_rsi. -/

/-- The rectified gain is nonnegative. -/
theorem pyMax_zero_nonneg (d : ℚ) : 0 ≤ pyMax d 0 := by
  unfold pyMax
  split
  · exact le_refl 0
  · exact le_of_not_lt (by assumption)

/-- A zero rectified gain means the delta was nonpositive. -/
theorem le_zero_of_pyMax_zero {d : ℚ} (h : pyMax d 0 = 0) : d ≤ 0 := by
  unfold pyMax at h
  split at h
  · exact le_of_lt (by assumption)
  · exact le_of_eq h

/-- The average gain over the window is nonnegative. -/
theorem gains14_nonneg (closes : List ℚ) : 0 ≤ gains14 closes := by
  unfold gains14
  apply div_nonneg _ (by norm_num)
  apply List.sum_nonneg
  intro x hx
  obtain ⟨d, _, rfl⟩ := List.mem_map.mp hx
  exact pyMax_zero_nonneg d

/-- The average loss over the window is nonnegative. -/
theorem losses14_nonneg (closes : List ℚ) : 0 ≤ losses14 closes := by
  unfold losses14
  apply div_nonneg _ (by norm_num)
  apply List.sum_nonneg
  intro x hx
  obtain ⟨d, _, rfl⟩ := List.mem_map.mp hx
  exact pyMax_zero_nonneg (-d)

/-- When both rolling averages vanish, every delta of the window is zero. -/
theorem window_all_zero_of_gl_zero {closes : List ℚ}
    (hg : gains14 closes = 0) (hl : losses14 closes = 0) :
    ∀ d ∈ lastN (diffs closes) 14, d = 0 := by
  unfold gains14 at hg
  unfold losses14 at hl
  have hsg : ((lastN (diffs closes) 14).map (fun d => pyMax d 0)).sum = 0 := by
    rcases div_eq_zero_iff.mp hg with h | h
    · exact h
    · norm_num at h
  have hsl : ((lastN (diffs closes) 14).map (fun d => pyMax (-d) 0)).sum = 0 := by
    rcases div_eq_zero_iff.mp hl with h | h
    · exact h
    · norm_num at h
  intro d hd
  have h1 : pyMax d 0 = 0 := by
    refine eq_zero_of_mem_of_sum_zero ?_ hsg _ (List.mem_map.mpr ⟨d, hd, rfl⟩)
    intro x hx
    obtain ⟨e, _, rfl⟩ := List.mem_map.mp hx
    exact pyMax_zero_nonneg e
  have h2 : pyMax (-d) 0 = 0 := by
    refine eq_zero_of_mem_of_sum_zero ?_ hsl _ (List.mem_map.mpr ⟨d, hd, rfl⟩)
    intro x hx
    obtain ⟨e, _, rfl⟩ := List.mem_map.mp hx
    exact pyMax_zero_nonneg (-e)
  have := le_zero_of_pyMax_zero h1
  have := le_zero_of_pyMax_zero h2
  linarith

/-- Unless the window is flat, rsiOf produces a value in [0, 100]. -/
theorem rsiOf_some_bounds {closes : List ℚ}
    (hnz : ¬ ∀ d ∈ lastN (diffs closes) 14, d = 0) :
    ∃ r, rsiOf closes = some r ∧ 0 ≤ r ∧ r ≤ 100 := by
  unfold rsiOf
  dsimp only
  by_cases hl : losses14 closes = 0
  · rw [if_pos hl]
    by_cases hg : gains14 closes = 0
    · exact absurd (window_all_zero_of_gl_zero hg hl) hnz
    · rw [if_neg hg]
      exact ⟨100, rfl, by norm_num, le_refl 100⟩
  · rw [if_neg hl]
    have hl0 : 0 < losses14 closes := lt_of_le_of_ne (losses14_nonneg _) (Ne.symm hl)
    have hq : 0 ≤ gains14 closes / losses14 closes :=
      div_nonneg (gains14_nonneg _) hl0.le
    have h1 : (0 : ℚ) < 1 + gains14 closes / losses14 closes := by linarith
    have hle : 100 / (1 + gains14 closes / losses14 closes) ≤ 100 := by
      rw [div_le_iff₀ h1]
      nlinarith
    have hpos : 0 < 100 / (1 + gains14 closes / losses14 closes) := by positivity
    exact ⟨_, rfl, by linarith, by linarith⟩

/-- An all-gains window yields RSI of exactly 100 (the +inf branch of the
float division). -/
theorem rsiOf_eq_100_of_all_gains {closes : List ℚ}
    (hlen : 14 ≤ (diffs closes).length)
    (h : ∀ d ∈ lastN (diffs closes) 14, 0 < d) : rsiOf closes = some 100 := by
  have hwlen : (lastN (diffs closes) 14).length = 14 := lastN_length hlen
  have hl : losses14 closes = 0 := by
    unfold losses14
    rw [List.sum_eq_zero, zero_div]
    intro x hx
    obtain ⟨d, hd, rfl⟩ := List.mem_map.mp hx
    have := h d hd
    unfold pyMax
    rw [if_pos (by linarith)]
  have hg : gains14 closes ≠ 0 := by
    unfold gains14
    have hpos : 0 < ((lastN (diffs closes) 14).map (fun d => pyMax d 0)).sum := by
      apply List.sum_pos
      · intro x hx
        obtain ⟨d, hd, rfl⟩ := List.mem_map.mp hx
        have hd0 := h d hd
        unfold pyMax
        rw [if_neg (by linarith)]
        exact hd0
      · intro hemp
        have := congrArg List.length hemp
        simp [hwlen] at this
    positivity
  unfold rsiOf
  dsimp only
  rw [if_pos hl, if_neg hg]

/-- An all-losses window yields RSI of exactly 0. -/
theorem rsiOf_eq_0_of_all_losses {closes : List ℚ}
    (hlen : 14 ≤ (diffs closes).length)
    (h : ∀ d ∈ lastN (diffs closes) 14, d < 0) : rsiOf closes = some 0 := by
  have hwlen : (lastN (diffs closes) 14).length = 14 := lastN_length hlen
  have hg : gains14 closes = 0 := by
    unfold gains14
    rw [List.sum_eq_zero, zero_div]
    intro x hx
    obtain ⟨d, hd, rfl⟩ := List.mem_map.mp hx
    have := h d hd
    unfold pyMax
    rw [if_pos (by linarith)]
  have hl : losses14 closes ≠ 0 := by
    unfold losses14
    have hpos : 0 < ((lastN (diffs closes) 14).map (fun d => pyMax (-d) 0)).sum := by
      apply List.sum_pos
      · intro x hx
        obtain ⟨d, hd, rfl⟩ := List.mem_map.mp hx
        have hd0 := h d hd
        unfold pyMax
        rw [if_neg (by linarith)]
        linarith
      · intro hemp
        have := congrArg List.length hemp
        simp [hwlen] at this
    positivity
  unfold rsiOf
  dsimp only
  rw [if_neg hl, hg]
  norm_num

/-- C2 counterexample: a 20-bar series with all closes equal (19 deltas, all
zero).  The indicator record is produced, but its rsi field is the float NaN
(modelled some none), which is not a number in [0, 100] — refuting the claim
that ≥14 deltas suffice for RSI ∈ [0, 100]. -/
theorem rsi_flat_series_is_nan :
    flatHist.length = 20 ∧
      (calculate_technical_indicators flatHist).map TechnicalIndicators.rsi = some none := by
  refine ⟨by decide, ?_⟩
  rw [calcTech_rsi flatHist (by decide)]
  with_unfolding_all decide

/-- C2 as amended: when the last 14 deltas are not all zero, the rsi field is a
value in [0, 100]; an all-gains window yields exactly 100, an all-losses window
exactly 0. -/
theorem rsi_in_range_unless_flat_window (hist : List Bar) (h20 : 20 ≤ hist.length)
    (hnz : ¬ ∀ d ∈ lastN (diffs (hist.map Bar.close)) 14, d = 0) :
    (∃ r, (calculate_technical_indicators hist).map TechnicalIndicators.rsi = some (some r)
        ∧ 0 ≤ r ∧ r ≤ 100)
    ∧ ((∀ d ∈ lastN (diffs (hist.map Bar.close)) 14, 0 < d) →
        (calculate_technical_indicators hist).map TechnicalIndicators.rsi = some (some 100))
    ∧ ((∀ d ∈ lastN (diffs (hist.map Bar.close)) 14, d < 0) →
        (calculate_technical_indicators hist).map TechnicalIndicators.rsi = some (some 0)) := by
  have hrw := calcTech_rsi hist h20
  have hlen : 14 ≤ (diffs (hist.map Bar.close)).length := by
    rw [diffs_length, List.length_map]
    omega
  refine ⟨?_, ?_, ?_⟩
  · obtain ⟨r, hr, h0, h1⟩ := rsiOf_some_bounds hnz
    exact ⟨r, by rw [hrw, hr], h0, h1⟩
  · intro h
    rw [hrw, rsiOf_eq_100_of_all_gains hlen h]
  · intro h
    rw [hrw, rsiOf_eq_0_of_all_losses hlen h]

/-- C2 witness: the strictly increasing 20-bar series, whose deltas are all
+1, hits the all-gains boundary RSI = 100. -/
theorem rsi_in_range_witness :
    (calculate_technical_indicators upHist).map TechnicalIndicators.rsi = some (some 100) :=
  (rsi_in_range_unless_flat_window upHist (by decide)
      (by with_unfolding_all decide)).2.1 (by with_unfolding_all decide)

/-! Claim C3: the momentum fields. -/

/-- C3 counterexample: on the 20-bar series whose last six closes are
1, 2, 3, 4, 5, 6, the source's momentum_1w is (6/2 - 1) * 100 = 200 while the
specification's formula (close[-1]/close[-1-5] - 1) * 100 gives
(6/1 - 1) * 100 = 500; its momentum_1m is (6/1 - 1) * 100 = 500 while the
specification, needing close[-21] of a 20-bar series, yields 0. -/
theorem momentum_uses_kth_from_last_counterexample :
    (calculate_technical_indicators stepHist).map TechnicalIndicators.momentum_1w
        ≠ some (momentum_spec_formula 5 (stepHist.map Bar.close)) ∧
      (calculate_technical_indicators stepHist).map TechnicalIndicators.momentum_1m
        ≠ some (momentum_spec_formula 20 (stepHist.map Bar.close)) := by
  have h1 : (calculate_technical_indicators stepHist).map TechnicalIndicators.momentum_1w
      = some (momentumK 5 (stepHist.map Bar.close)) := by
    unfold calculate_technical_indicators
    rw [if_neg (by decide)]
    rfl
  have h2 : (calculate_technical_indicators stepHist).map TechnicalIndicators.momentum_1m
      = some (momentumK 20 (stepHist.map Bar.close)) := by
    unfold calculate_technical_indicators
    rw [if_neg (by decide)]
    rfl
  constructor
  · rw [h1]
    with_unfolding_all decide
  · rw [h2]
    with_unfolding_all decide

/-- C3 as amended: for at least 20 bars, the momentum fields read the k-th
close from the end (a k-1 bar horizon), i.e. momentum_1w and momentum_1m use
close[len-5] and close[len-20], and momentum_3m uses close[len-60] when the
series has at least 60 bars and is 0 otherwise. -/
theorem momentum_fields_formula (hist : List Bar) (h20 : 20 ≤ hist.length) :
    (calculate_technical_indicators hist).map
        (fun t => (t.momentum_1w, t.momentum_1m, t.momentum_3m)) =
      some
        (((hist.map Bar.close).getD (hist.length - 1) 0
            / (hist.map Bar.close).getD (hist.length - 5) 0 - 1) * 100,
          ((hist.map Bar.close).getD (hist.length - 1) 0
            / (hist.map Bar.close).getD (hist.length - 20) 0 - 1) * 100,
          if 60 ≤ hist.length then
            ((hist.map Bar.close).getD (hist.length - 1) 0
              / (hist.map Bar.close).getD (hist.length - 60) 0 - 1) * 100
          else 0) := by
  rw [calcTech_momentum hist h20]
  unfold momentumK ilocNeg
  simp only [List.length_map]
  rw [if_pos (by omega), if_pos (by omega)]

/-- C3 witness: the amended formula at the concrete 20-bar series stepHist. -/
theorem momentum_fields_formula_witness :
    (calculate_technical_indicators stepHist).map
        (fun t => (t.momentum_1w, t.momentum_1m, t.momentum_3m)) =
      some
        (((stepHist.map Bar.close).getD (stepHist.length - 1) 0
            / (stepHist.map Bar.close).getD (stepHist.length - 5) 0 - 1) * 100,
          ((stepHist.map Bar.close).getD (stepHist.length - 1) 0
            / (stepHist.map Bar.close).getD (stepHist.length - 20) 0 - 1) * 100,
          if 60 ≤ stepHist.length then
            ((stepHist.map Bar.close).getD (stepHist.length - 1) 0
              / (stepHist.map Bar.close).getD (stepHist.length - 60) 0 - 1) * 100
          else 0) :=
  momentum_fields_formula stepHist (by decide)

/-! Claim C4: the importer's value computation and weight renormalization. -/

/-- C4 counterexample: a row with ticker, quantity 2 and average price 10 but
no current price is recorded with value 0, not 2 * 10 = 20 — there is no
fallback to the average price. -/
theorem import_value_no_avg_price_fallback :
    (import_from_csv [rowNoCp]).positions.map Position.value = [0] ∧
      (import_from_csv [rowNoCp]).positions.map Position.value
        ≠ [rowNoCp.quantity.getD 0 * rowNoCp.avg_price.getD 0] := by
  constructor <;> with_unfolding_all decide

/-- C4 as amended: every imported position's value is
shares * current_price when a (nonzero) current price is present and 0
otherwise, and after all rows are processed every weight equals
value / total_value * 100 in a second pass (0 when the total is not
positive). -/
theorem import_value_and_weight_formula (rows : List Row) :
    ((import_from_csv rows).positions.map Position.value
        = (rows.filter validRow).map (fun r =>
            if truthyQ r.current_price then r.quantity.getD 0 * r.current_price.getD 0
            else 0)) ∧
      ∀ p ∈ (import_from_csv rows).positions,
        p.weight =
          if 0 < (import_from_csv rows).total_value
          then p.value / (import_from_csv rows).total_value * 100 else 0 := by
  constructor
  · unfold import_from_csv
    dsimp only
    rw [List.map_map, List.map_map]
    rfl
  · intro p hp
    unfold import_from_csv at hp ⊢
    dsimp only at hp ⊢
    rw [List.map_map] at hp
    obtain ⟨q, _, rfl⟩ := List.mem_map.mp hp
    rfl

/-! Claim C8: weights sum to 100 after renormalization. -/

/-- C8 counterexample: the single-row import with no current price yields a
non-empty position set whose weights sum to 0, not 100 (the row's value is 0,
so total_value is 0 and the weight pass never fires). -/
theorem weights_sum_zero_without_prices :
    (import_from_csv [rowNoCp]).positions ≠ [] ∧
      ((import_from_csv [rowNoCp]).positions.map Position.weight).sum = 0 ∧
      ((import_from_csv [rowNoCp]).positions.map Position.weight).sum ≠ 100 := by
  refine ⟨?_, ?_, ?_⟩ <;> with_unfolding_all decide

/-- C8 as amended: whenever the accumulated total_value is positive, the
renormalized weights sum to exactly 100 (exactly, since the embedding is over
ℚ; the source's floats add an epsilon). -/
theorem weights_sum_to_100_of_total_pos (rows : List Row)
    (h : 0 < (import_from_csv rows).total_value) :
    ((import_from_csv rows).positions.map Position.weight).sum = 100 := by
  unfold import_from_csv at h ⊢
  dsimp only at h ⊢
  rw [List.map_map]
  set ps := (rows.filter validRow).map mkPosition with hps
  set T := (ps.map Position.value).sum with hT
  have hcomp :
      (Position.weight ∘ fun p =>
          { p with weight := if 0 < T then p.value / T * 100 else 0 })
        = fun p : Position => if 0 < T then p.value / T * 100 else 0 := rfl
  rw [hcomp]
  simp only [if_pos h]
  have h2 : (fun p : Position => p.value / T * 100)
      = (fun x => x * (100 / T)) ∘ Position.value := by
    funext p
    dsimp only [Function.comp]
    ring
  rw [h2, ← List.map_map, sum_map_mul_const, ← hT]
  field_simp

/-- C8 witness: a one-row import with a current price; total 21, weight 100. -/
theorem weights_sum_to_100_witness :
    ((import_from_csv [rowFull]).positions.map Position.weight).sum = 100 :=
  weights_sum_to_100_of_total_pos [rowFull] (by with_unfolding_all decide)

/-! Claim C9: the Bollinger-position divisor. -/

/-- C9 (confirmed).  For a series of at least 20 bars whose rolling 20-bar
sample variance is strictly positive (the last 20 closes are not all equal),
the divisor upper_band - lower_band of the bb_position computation is nonzero,
so the division in calculate_technical_indicators is well-defined. -/
theorem bollinger_divisor_nonzero (hist : List Bar) (h20 : 20 ≤ hist.length)
    (hv : 0 < sampleVar20 (hist.map Bar.close)) :
    upperBand (hist.map Bar.close) - lowerBand (hist.map Bar.close) ≠ 0 := by
  unfold upperBand lowerBand std20
  have hs : 0 < Real.sqrt (sampleVar20 (hist.map Bar.close)) :=
    Real.sqrt_pos.mpr (by exact_mod_cast hv)
  intro hEq
  have h4 : ((rollingMeanLast (hist.map Bar.close) 20 : ℝ)
        + Real.sqrt (sampleVar20 (hist.map Bar.close)) * 2)
      - ((rollingMeanLast (hist.map Bar.close) 20 : ℝ)
        - Real.sqrt (sampleVar20 (hist.map Bar.close)) * 2)
      = Real.sqrt (sampleVar20 (hist.map Bar.close)) * 4 := by ring
  rw [h4] at hEq
  nlinarith

/-- C9 witness: the 20-bar series with a single spike has sample variance
1/20 > 0. -/
theorem bollinger_divisor_nonzero_witness :
    upperBand (spikeHist.map Bar.close) - lowerBand (spikeHist.map Bar.close) ≠ 0 :=
  bollinger_divisor_nonzero spikeHist (by decide) (by with_unfolding_all decide)

end Scorpion
